import Mathlib

/-!
Shallow embedding of the stateful-python coordinator (src/server.py and
src/client.py): wire messages, the incremental multi-object decode loop that
both sides run over received text, the server entry-point registry with its
four decorated entry points, the per-connection session handler, the client
reply loop, and the client connect-with-retry loop.

Python standard-library pieces are treated as external collaborators:
json.JSONDecoder.raw_decode is a parameter of every loop (a function from a
buffer and a character offset to either a decode-error message or a parsed
value together with the offset just past it), traceback.format_exc is
modelled as a wrapper that embeds the exception message, and json.dumps is
left abstract by working at the level of message values rather than bytes.
Buffers are lists of characters (Python str), byte offsets are Nat, and the
unbounded while-loops are given explicit fuel; a fuel-exhaustion result is
`none` and never occurs in the situations the theorems describe.
-/

namespace StatefulPython

/-- Python values appearing in wire-message argument lists: relay messages
carry either a text chunk (string) or an exit code (int); SystemExit payloads
can be either, since entry-point arguments arrive as strings. -/
inductive PyVal where
  | int (n : Int)
  | str (s : String)
deriving DecidableEq, Repr

/-- One JSON message on the wire as built by server.py — a function name for
the client registry plus an argument list. The json.dumps serialization is
standard library and kept abstract. -/
structure WireMsg where
  function_name : String
  args : List PyVal
deriving DecidableEq, Repr

/-- server.py Handler.tell_client_to_exit (lines 104-113): the terminate
directive sent to the client, named _exit to avoid redefining the builtin. -/
def tell_client_to_exit (exit_code : PyVal) : WireMsg :=
  ⟨"_exit", [exit_code]⟩

/-- The incremental decode loop shared by client.py lines 101-105 and
server.py lines 155-157: `msg_pos, msg_last = 0, len(buf) - 1` followed by
`while msg_pos < msg_last: v, msg_pos = raw_decode(buf, msg_pos)`.
The loop condition compares the offset with the last index of the buffer
(its length minus one, with Nat subtraction matching the Python comparison
against -1 for the empty buffer, where both sides leave the loop at once).
Returns the parsed values in order and the final offset; `none` on a decode
error or on fuel exhaustion. -/
def decodeLoopAux {α : Type} (raw_decode : List Char → Nat → Except String (α × Nat))
    (buf : List Char) : Nat → Nat → Option (List α × Nat)
  | 0, _ => none
  | fuel + 1, msg_pos =>
    if msg_pos < buf.length - 1 then
      match raw_decode buf msg_pos with
      | .error _ => none
      | .ok (v, next_pos) =>
        match decodeLoopAux raw_decode buf fuel next_pos with
        | none => none
        | some (vs, final_pos) => some (v :: vs, final_pos)
    else
      some ([], msg_pos)

/-- The decode loop started at offset 0, with enough fuel for any run whose
offsets advance by at least one character per parsed value. -/
def decodeLoop {α : Type} (raw_decode : List Char → Nat → Except String (α × Nat))
    (buf : List Char) : Option (List α × Nat) :=
  decodeLoopAux raw_decode buf (buf.length + 1) 0

/-- Process-wide server state: the environment (os.environ, replaced wholesale
by each request) and the example global THING created by set_thing. -/
structure ServerState where
  environ : List (String × String)
  thing : Option String
deriving DecidableEq, Repr

/-- One decoded request object from the client (client.py lines 86-90):
function name, positional string arguments, and the full environment
snapshot. -/
structure Request where
  function_name : String
  args : List String
  env : List (String × String)
deriving DecidableEq, Repr

/-- Outcome of invoking an entry point: normal return, SystemExit raised via
sys.exit (carrying its payload), or any other exception (carrying the message
that traceback.format_exc would embed). -/
inductive Outcome where
  | ok
  | sysExit (code : PyVal)
  | exc (msg : String)
deriving Repr

/-- The two output channels rebound while a request is handled. -/
inductive Chan where
  | out
  | err
deriving DecidableEq, Repr

/-- Client-side handler name each rebound channel targets
(server.py line 146). -/
def chanFunc : Chan → String
  | .out => "print_server_stdout"
  | .err => "print_server_stderr"

/-- server.py JsonPayloadOutputStreamWrapper.write (lines 131-137): encode the
text as a message naming the client handler and send it at once, with no
delimiter. `sent` is the sequence already written to the connection; write
appends unconditionally — there is no emptiness or whitespace check. -/
def JsonPayloadOutputStreamWrapper.write (client_function_name : String)
    (sent : List WireMsg) (text : String) : List WireMsg :=
  sent ++ [⟨client_function_name, [.str text]⟩]

/-- Messages produced on the connection by a sequence of write calls made by
an entry point through the rebound channels, in the order written. -/
def writesMsgs (ws : List (Chan × String)) : List WireMsg :=
  ws.foldl (fun sent w => JsonPayloadOutputStreamWrapper.write (chanFunc w.1) sent w.2) []

/-- Messages produced by one Python print call to a rebound channel: CPython
print issues one write for the text and one for the terminating newline. -/
def printTo (ch : Chan) (text : String) : List WireMsg :=
  writesMsgs [(ch, text), (ch, "\n")]

/-- Model of traceback.format_exc(): a traceback wrapper embedding the
exception message. -/
def format_exc (msg : String) : String :=
  "Traceback (most recent call last):\n" ++ msg ++ "\n"

/-- The shutdown notice printed by Handler.handle before exiting
(server.py lines 166, 173, 180). -/
def shutdownNoticeText : String :=
  "Shutting down server.py"

/-- One registered server entry point: its name, the rendering of its
inspect.signature (used in the unknown-name diagnostic), and its behaviour as
a state transformer returning relayed messages and an outcome. -/
structure EntryPoint where
  name : String
  sig : String
  fn : ServerState → List String → ServerState × List WireMsg × Outcome

/-- Python str.join with a newline separator, as used to render the list of
valid entry points (server.py line 49). -/
def joinLines : List String → String
  | [] => ""
  | [x] => x
  | x :: y :: ys => x ++ "\n" ++ joinLines (y :: ys)

/-- One bullet line of the unknown-name diagnostic:
two spaces, a bullet, the entry point name, its signature. -/
def entryBullet (ep : EntryPoint) : String :=
  "  • " ++ ep.name ++ ep.sig

/-- The fixed text of the NameError message raised by ServerEntryPoints.run
for an unknown name (server.py lines 39-49), up to the enumeration. -/
def entryPointErrorHeader (func_name : String) : String :=
  "\"" ++ func_name ++ "\" is not a valid entry point function in server.py\n\n" ++
  "Remember to first decorate those functions with @SERVER_ENTRY_POINT like this:\n\n" ++
  "@SERVER_ENTRY_POINT\ndef my_entry_point():\n    do something here...\n\n" ++
  "Current valid entry points are:\n"

/-- The full NameError message: header followed by one bullet line per
currently registered entry point, joined with newlines. -/
def entryPointError (eps : List EntryPoint) (func_name : String) : String :=
  entryPointErrorHeader func_name ++ joinLines (eps.map entryBullet)

/-- server.py ServerEntryPoints.run (lines 35-50): look the requested name up
in the registry and invoke it on the arguments; for an absent name raise a
NameError whose message enumerates every registered name with its
signature. -/
def ServerEntryPoints.run (eps : List EntryPoint) (func_name : String)
    (args : List String) (s : ServerState) : ServerState × List WireMsg × Outcome :=
  match eps.find? (fun ep => ep.name == func_name) with
  | some ep => ep.fn s args
  | none => (s, [], .exc (entryPointError eps func_name))

/-- server.py set_thing (lines 66-70): store the value in the global THING
and print a confirmation. -/
def set_thing (s : ServerState) (value : String) : ServerState × List WireMsg × Outcome :=
  ({ s with thing := some value },
   printTo .out ("global variable THING is now \"" ++ value ++ "\""), .ok)

/-- server.py get_thing (lines 73-76): print the global THING; a NameError if
it was never set. -/
def get_thing (s : ServerState) : ServerState × List WireMsg × Outcome :=
  match s.thing with
  | some v => (s, printTo .out v, .ok)
  | none => (s, [], .exc "NameError: name \x27THING\x27 is not defined")

/-- server.py print_env_var_foo (lines 79-82): print os.environ.get("foo"),
which is the string None when absent. -/
def print_env_var_foo (s : ServerState) : ServerState × List WireMsg × Outcome :=
  (s, printTo .out (match s.environ.lookup "foo" with
    | some v => v
    | none => "None"), .ok)

/-- server.py exit (lines 85-89): raise SystemExit via sys.exit; with no
argument the default exit code is the int 0, and a client-supplied argument
arrives as a string and is passed through unchanged. -/
def exit (s : ServerState) (args : List String) : ServerState × List WireMsg × Outcome :=
  match args with
  | [] => (s, [], .sysExit (.int 0))
  | [exit_code] => (s, [], .sysExit (.str exit_code))
  | _ => (s, [], .exc "TypeError: exit() takes from 0 to 1 positional arguments")

/-- The registry built by the @SERVER_ENTRY_POINT decorations, in decoration
order, with the inspect.signature rendering of each entry point. Arity
mismatches on call raise TypeError, reaching the generic exception branch of
the handler. -/
def SERVER_ENTRY_POINT : List EntryPoint :=
  [ ⟨"set_thing", "(value)", fun s args =>
      match args with
      | [value] => set_thing s value
      | _ => (s, [], .exc "TypeError: set_thing() takes 1 positional argument")⟩,
    ⟨"get_thing", "()", fun s args =>
      match args with
      | [] => get_thing s
      | _ => (s, [], .exc "TypeError: get_thing() takes 0 positional arguments")⟩,
    ⟨"print_env_var_foo", "()", fun s args =>
      match args with
      | [] => print_env_var_foo s
      | _ => (s, [], .exc "TypeError: print_env_var_foo() takes 0 positional arguments")⟩,
    ⟨"exit", "(exit_code=0)", fun s args => exit s args⟩ ]

/-- One dispatched request inside the handler loop (server.py lines 159-161):
replace the process-wide environment in full with the request environment,
then run the requested entry point on the request arguments. -/
def dispatchOne (eps : List EntryPoint) (s : ServerState) (req : Request) :
    ServerState × List WireMsg × Outcome :=
  ServerEntryPoints.run eps req.function_name req.args { s with environ := req.env }

/-- Result of handling one request line: either the decode loop finished and
the connection loop reads the next line (with the state, the messages sent on
the connection in order, and the final offset), or the whole process shuts
down via clean_exit with the given process exit code, the original output
channels having been restored first (server.py lines 115-118). -/
inductive HandleResult where
  | next (s : ServerState) (sent : List WireMsg) (final_pos : Nat)
  | shutdown (sent : List WireMsg) (processExitCode : Int) (stdioRestored : Bool)
deriving Repr

/-- server.py Handler.clean_exit (lines 115-118): restore stdout and stderr,
then sys.exit(exit_value); the SystemExit is not an Exception, so it escapes
Handler.handle and socketserver and becomes the process exit code. -/
def clean_exit (sent : List WireMsg) (exit_value : Int) : HandleResult :=
  .shutdown sent exit_value true

/-- The body of Handler.handle for one request line (server.py lines 154-182):
the incremental decode loop over the line, dispatching each decoded request.
A decode failure relays the traceback as error output, relays the shutdown
notice, sends terminate(1) and clean_exits the process with code 1. A
dispatched request that returns normally is answered with terminate(0) and
the loop continues. SystemExit from the entry point relays the shutdown
notice, sends the terminate directive carrying the SystemExit payload and
clean_exits the process with code 0. Any other exception relays its
traceback as error output, relays the shutdown notice, sends terminate(1)
and clean_exits the process with code 0. -/
def handleLoop (eps : List EntryPoint)
    (raw_decode : List Char → Nat → Except String (Request × Nat))
    (line : List Char) : Nat → Nat → ServerState → List WireMsg → Option HandleResult
  | 0, _, _, _ => none
  | fuel + 1, msg_pos, s, sent =>
    if msg_pos < line.length - 1 then
      match raw_decode line msg_pos with
      | .error e =>
        some (clean_exit (sent ++ printTo .err (format_exc e) ++
          printTo .out shutdownNoticeText ++ [tell_client_to_exit (.int 1)]) 1)
      | .ok (req, next_pos) =>
        match dispatchOne eps s req with
        | (s2, opMsgs, .ok) =>
          handleLoop eps raw_decode line fuel next_pos s2
            (sent ++ opMsgs ++ [tell_client_to_exit (.int 0)])
        | (_, opMsgs, .sysExit code) =>
          some (clean_exit (sent ++ opMsgs ++ printTo .out shutdownNoticeText ++
            [tell_client_to_exit code]) 0)
        | (_, opMsgs, .exc msg) =>
          some (clean_exit (sent ++ opMsgs ++ printTo .err (format_exc msg) ++
            printTo .out shutdownNoticeText ++ [tell_client_to_exit (.int 1)]) 0)
    else
      some (.next s sent msg_pos)

/-- Handler.handle applied to one non-empty stripped request line, starting
the decode loop at offset 0 with nothing sent yet. -/
def handleLine (eps : List EntryPoint)
    (raw_decode : List Char → Nat → Except String (Request × Nat))
    (s : ServerState) (line : List Char) : Option HandleResult :=
  handleLoop eps raw_decode line (line.length + 1) 0 s []

/-- The server state reached after dispatching a sequence of requests in
order, each through dispatchOne against the decorated registry. -/
def dispatchStates (s : ServerState) (reqs : List Request) : ServerState :=
  reqs.foldl (fun st r => (dispatchOne SERVER_ENTRY_POINT st r).1) s

/-- Result of the client processing one received chunk: keep looping on recv
(with the texts written so far to local stdout and stderr), terminate via
sys.exit with the given SystemExit payload, or crash on an unhandled
exception such as an arity error. -/
inductive ClientResult where
  | looping (out err : List String)
  | exited (code : PyVal) (out err : List String)
  | crashed (out err : List String)
deriving Repr

/-- Python str() of a wire value as print would render it. -/
def pyStr : PyVal → String
  | .int n => toString n
  | .str s => s

/-- client.py ClientEntryPoints.run with the three decorated client entry
points (lines 31-58): print_server_stdout and print_server_stderr append the
text with no newline to the local streams and return (the loop keeps going),
_exit raises SystemExit with the received code, and an unknown name prints an
error line to stderr and exits with code 1. -/
def ClientEntryPoints.run (msg : WireMsg) (out err : List String) : ClientResult :=
  if msg.function_name = "print_server_stdout" then
    match msg.args with
    | [t] => .looping (out ++ [pyStr t]) err
    | _ => .crashed out err
  else if msg.function_name = "print_server_stderr" then
    match msg.args with
    | [t] => .looping out (err ++ [pyStr t])
    | _ => .crashed out err
  else if msg.function_name = "_exit" then
    match msg.args with
    | [code] => .exited code out err
    | _ => .crashed out err
  else
    .exited (.int 1) out
      (err ++ ["Error " ++ msg.function_name ++ " not in valid entry points\n"])

/-- The client decode loop over one received chunk (client.py lines 98-108):
the same incremental loop, dispatching each decoded message to the client
registry. A JSONDecodeError is printed (str of the exception plus a newline,
to stdout) and the result is looping: the recv loop continues waiting for
more bytes. -/
def clientChunkLoop (raw_decode : List Char → Nat → Except String (WireMsg × Nat))
    (chunk : List Char) : Nat → Nat → List String → List String → Option ClientResult
  | 0, _, _, _ => none
  | fuel + 1, msg_pos, out, err =>
    if msg_pos < chunk.length - 1 then
      match raw_decode chunk msg_pos with
      | .error e => some (.looping (out ++ [e ++ "\n"]) err)
      | .ok (msg, next_pos) =>
        match ClientEntryPoints.run msg out err with
        | .looping out2 err2 => clientChunkLoop raw_decode chunk fuel next_pos out2 err2
        | r => some r
    else
      some (.looping out err)

/-- One full pass of the client over a non-empty stripped chunk, starting at
offset 0 with nothing printed yet. -/
def clientHandleChunk (raw_decode : List Char → Nat → Except String (WireMsg × Nat))
    (chunk : List Char) : Option ClientResult :=
  clientChunkLoop raw_decode chunk (chunk.length + 1) 0 [] []

/-- Observable events of the client connect-with-retry loop
(client.py lines 70-82). Sleep durations are in tenths of the time unit:
sleepTenths n stands for time.sleep(n * 0.1). -/
inductive ConnEvent where
  | connectAttempt
  | stdoutLine (text : String)
  | sleepTenths (n : Nat)
  | stderrLine (text : String)
  | exitProcess (code : Int)
deriving DecidableEq, BEq, Repr

/-- The waiting notice printed between connection attempts. -/
def waitingNoticeText : String :=
  "[client.py]: Waiting for ./stateful-python-coordinator-socket"

/-- client.py connect loop (lines 70-82): try to connect; on
ConnectionRefusedError or FileNotFoundError increment the attempt counter;
while it is below 10, print the waiting notice, sleep counter × 0.1 and
retry; otherwise print a diagnostic to stderr and sys.exit(1). `succeeds`
tells whether the n-th attempt (counting failures so far) reaches a
listener; fuel bounds the unbounded while loop. -/
def connectLoop (succeeds : Nat → Bool) : Nat → Nat → List ConnEvent
  | 0, _ => []
  | fuel + 1, connection_attempts =>
    if succeeds connection_attempts then
      [.connectAttempt]
    else if connection_attempts + 1 < 10 then
      .connectAttempt :: .stdoutLine waitingNoticeText ::
        .sleepTenths (connection_attempts + 1) ::
        connectLoop succeeds fuel (connection_attempts + 1)
    else
      [.connectAttempt,
       .stderrLine ("[client.py]: Couldn\x27t connect after " ++
         toString (connection_attempts + 1) ++ " attempts"),
       .exitProcess 1]

/-- A decoder for witnesses that recognizes the two-character text of an
empty JSON object at any offset where it occurs. -/
def braceDecode (buf : List Char) (msg_pos : Nat) : Except String (Unit × Nat) :=
  if (buf.drop msg_pos).take 2 = ['{', '}'] then .ok ((), msg_pos + 2)
  else .error "Expecting value"

/-- A decoder for witnesses modelling a line that holds exactly one request
object: raw_decode at offset 0 returns the request and consumes the whole
line. -/
def fixedRequestDecoder (req : Request) : List Char → Nat → Except String (Request × Nat) :=
  fun line msg_pos =>
    if msg_pos = 0 then .ok (req, line.length) else .error "Expecting value"

end StatefulPython

namespace StatefulPython

/-- Appending strings concatenates their character lists. -/
theorem string_data_append (a b : String) : (a ++ b).data = a.data ++ b.data := rfl

/-- A member of a list of lines is a contiguous part of their
newline-join. -/
theorem joinLines_contains_mem (x : String) (l : List String) (hx : x ∈ l) :
    x.data <:+: (joinLines l).data := by
  induction l with
  | nil => cases hx
  | cons y ys ih =>
    rcases List.mem_cons.mp hx with rfl | hx2
    · cases ys with
      | nil => exact List.infix_refl _
      | cons z zs =>
        rw [joinLines, string_data_append, string_data_append, List.append_assoc]
        exact List.IsPrefix.isInfix (List.prefix_append _ _)
    · cases ys with
      | nil => cases hx2
      | cons z zs =>
        rw [joinLines, string_data_append]
        exact (ih hx2).trans (List.IsSuffix.isInfix (List.suffix_append _ _))

/-- Every registered entry point contributes its bullet line, name and
signature included, as a contiguous part of the unknown-name diagnostic. -/
theorem entryPointError_contains_bullet (eps : List EntryPoint) (func_name : String)
    (ep : EntryPoint) (hep : ep ∈ eps) :
    (entryBullet ep).data <:+: (entryPointError eps func_name).data := by
  rw [entryPointError, string_data_append]
  exact (joinLines_contains_mem _ _ (List.mem_map_of_mem entryBullet hep)).trans
    (List.IsSuffix.isInfix (List.suffix_append _ _))

/-- If every registered handler leaves the environment unchanged, so does
dispatch through the registry, whether the name is found or not. -/
theorem run_environ_of_preserve (eps : List EntryPoint)
    (h : ∀ ep ∈ eps, ∀ s args, ((ep.fn s args).1).environ = s.environ)
    (func_name : String) (args : List String) (s : ServerState) :
    ((ServerEntryPoints.run eps func_name args s).1).environ = s.environ := by
  unfold ServerEntryPoints.run
  cases hf : eps.find? (fun ep => ep.name == func_name) with
  | none => rfl
  | some ep => exact h ep (List.mem_of_find?_eq_some hf) s args

/-- None of the four decorated entry points of server.py touches the
process-wide environment: set_thing only writes THING, the others only
read state or raise. -/
theorem server_handlers_preserve_environ :
    ∀ ep ∈ SERVER_ENTRY_POINT, ∀ s args, ((ep.fn s args).1).environ = s.environ := by
  intro ep hep s args
  simp only [SERVER_ENTRY_POINT, List.mem_cons, List.not_mem_nil, or_false] at hep
  rcases hep with rfl | rfl | rfl | rfl <;>
    rcases args with _ | ⟨a, _ | ⟨b, rest⟩⟩ <;>
    rcases s with ⟨env, _ | t⟩ <;>
    simp [set_thing, get_thing, print_env_var_foo, exit]

/-- After one dispatched request the environment is the request's env
snapshot: it was replaced wholesale before invocation and no handler
changes it. -/
theorem dispatchOne_environ (st : ServerState) (req : Request) :
    ((dispatchOne SERVER_ENTRY_POINT st req).1).environ = req.env := by
  unfold dispatchOne
  rw [run_environ_of_preserve _ server_handlers_preserve_environ]

/-- The write-fold producing an operation's relay messages appends one
message per write call, in write order. -/
theorem writesMsgs_foldl (ws : List (Chan × String)) (acc : List WireMsg) :
    ws.foldl (fun sent w => JsonPayloadOutputStreamWrapper.write (chanFunc w.1) sent w.2) acc
      = acc ++ ws.map (fun w => ⟨chanFunc w.1, [.str w.2]⟩) := by
  induction ws generalizing acc with
  | nil => simp
  | cons w ws ih =>
    rw [List.foldl_cons, List.map_cons, ih]
    simp [JsonPayloadOutputStreamWrapper.write]

/-- Relay messages of a write sequence are exactly the per-write messages,
in the order the writes occurred. -/
theorem writesMsgs_eq_map (ws : List (Chan × String)) :
    writesMsgs ws = ws.map (fun w => ⟨chanFunc w.1, [.str w.2]⟩) := by
  unfold writesMsgs
  rw [writesMsgs_foldl, List.nil_append]

/-- C1: for every buffer that is the concatenation of two complete JSON
objects with no separator, the incremental decode loop (shared by client and
server) yields both objects in buffer order and its final offset equals the
buffer length. The two raw_decode hypotheses state that a complete JSON
value's text fills each half (the stdlib parser returns the offset just past
the parsed value), and the length hypotheses record that a JSON object text
is at least the two characters of an empty object. -/
theorem decode_loop_two_objects {α : Type}
    (raw_decode : List Char → Nat → Except String (α × Nat))
    (s1 s2 : List Char) (v1 v2 : α)
    (h1 : 2 ≤ s1.length) (h2 : 2 ≤ s2.length)
    (hd1 : raw_decode (s1 ++ s2) 0 = .ok (v1, s1.length))
    (hd2 : raw_decode (s1 ++ s2) s1.length = .ok (v2, (s1 ++ s2).length)) :
    decodeLoop raw_decode (s1 ++ s2) = some ([v1, v2], (s1 ++ s2).length) := by
  have hlen : (s1 ++ s2).length = s1.length + s2.length := List.length_append s1 s2
  obtain ⟨f, hf⟩ : ∃ f, (s1 ++ s2).length = f + 1 := ⟨(s1 ++ s2).length - 1, by omega⟩
  obtain ⟨g, hg⟩ : ∃ g, f = g + 1 := ⟨f - 1, by omega⟩
  unfold decodeLoop
  rw [decodeLoopAux, if_pos (by omega), hd1]
  dsimp only
  rw [hf, hg, decodeLoopAux, if_pos (by omega)]
  rw [show raw_decode (s1 ++ s2) s1.length = .ok (v2, g + 1 + 1) by rw [hd2, hf, hg]]
  dsimp only
  rw [decodeLoopAux, if_neg (by omega)]

/-- Witness for C1: the four-character buffer of two empty JSON objects. -/
theorem decode_loop_two_objects_witness :
    (2 ≤ (['{', '}'] : List Char).length ∧
     braceDecode (['{', '}'] ++ ['{', '}']) 0 = .ok ((), (['{', '}'] : List Char).length) ∧
     braceDecode (['{', '}'] ++ ['{', '}']) (['{', '}'] : List Char).length
       = .ok ((), (['{', '}'] ++ ['{', '}'] : List Char).length)) ∧
    decodeLoop braceDecode (['{', '}'] ++ ['{', '}']) =
      some ([(), ()], (['{', '}'] ++ ['{', '}'] : List Char).length) :=
  ⟨⟨by decide, rfl, rfl⟩,
   decode_loop_two_objects braceDecode ['{', '}'] ['{', '}'] () ()
     (by decide) (by decide) rfl rfl⟩

/-- C2: for every registry, every connection and every dispatched operation
that writes text and then returns normally, the messages sent on the
connection for that request are exactly the operation's relay messages, in
the order the writes occurred, followed by — hence strictly before — the
terminate directive (the _exit message with code 0); the final conjunct
makes the write order explicit. -/
theorem output_before_exit (eps : List EntryPoint)
    (raw_decode : List Char → Nat → Except String (Request × Nat))
    (s s2 : ServerState) (line : List Char) (req : Request) (ws : List (Chan × String))
    (hlen : 2 ≤ line.length)
    (hrd : raw_decode line 0 = .ok (req, line.length))
    (hrun : dispatchOne eps s req = (s2, writesMsgs ws, .ok)) :
    handleLine eps raw_decode s line =
      some (.next s2 (writesMsgs ws ++ [tell_client_to_exit (.int 0)]) line.length) ∧
    writesMsgs ws = ws.map (fun w => ⟨chanFunc w.1, [.str w.2]⟩) := by
  refine ⟨?_, writesMsgs_eq_map ws⟩
  obtain ⟨f, hf⟩ : ∃ f, line.length = f + 1 := ⟨line.length - 1, by omega⟩
  unfold handleLine
  rw [handleLoop, if_pos (by omega), hrd]
  dsimp only
  rw [hrun]
  dsimp only
  rw [hf, handleLoop, if_neg (by omega), List.nil_append, ← hf]

/-- Witness for C2: set_thing "hi", whose two writes (the confirmation text
and the newline) are relayed before terminate(0). -/
theorem output_before_exit_witness :
    (2 ≤ ("xxxx".data).length ∧
     fixedRequestDecoder ⟨"set_thing", ["hi"], [("PATH", "/bin")]⟩ "xxxx".data 0
       = .ok (⟨"set_thing", ["hi"], [("PATH", "/bin")]⟩, ("xxxx".data).length) ∧
     dispatchOne SERVER_ENTRY_POINT ⟨[], none⟩ ⟨"set_thing", ["hi"], [("PATH", "/bin")]⟩
       = (⟨[("PATH", "/bin")], some "hi"⟩,
          writesMsgs [(.out, "global variable THING is now \"hi\""), (.out, "\n")], .ok)) ∧
    handleLine SERVER_ENTRY_POINT (fixedRequestDecoder ⟨"set_thing", ["hi"], [("PATH", "/bin")]⟩)
        ⟨[], none⟩ "xxxx".data =
      some (.next ⟨[("PATH", "/bin")], some "hi"⟩
        (writesMsgs [(.out, "global variable THING is now \"hi\""), (.out, "\n")] ++
          [tell_client_to_exit (.int 0)]) ("xxxx".data).length) ∧
    writesMsgs [(.out, "global variable THING is now \"hi\""), (.out, "\n")] =
      [(.out, "global variable THING is now \"hi\""), (.out, "\n")].map
        (fun w => ⟨chanFunc w.1, [.str w.2]⟩) :=
  ⟨⟨by decide, rfl, rfl⟩,
   output_before_exit SERVER_ENTRY_POINT _ ⟨[], none⟩ ⟨[("PATH", "/bin")], some "hi"⟩
     "xxxx".data ⟨"set_thing", ["hi"], [("PATH", "/bin")]⟩
     [(.out, "global variable THING is now \"hi\""), (.out, "\n")]
     (by decide) rfl rfl⟩

/-- C3: after every dispatched request the process-wide environment equals
exactly the env mapping of the most recently dispatched request — it is
replaced in full before the operation runs and never merged with a prior
value, whatever requests came before and whatever state the server held. -/
theorem env_matches_last_request (s : ServerState) (reqs : List Request) (req : Request) :
    (dispatchStates s (reqs ++ [req])).environ = req.env := by
  unfold dispatchStates
  rw [List.foldl_append, List.foldl_cons, List.foldl_nil]
  exact dispatchOne_environ _ req

/-- C4: for every exit code N, when the dispatched handler raises SystemExit
with payload N the server relays the shutdown notice, sends the terminate
directive carrying N, restores the original output channels (the true flag,
from clean_exit) and ends its own process with exit code 0 regardless of N. -/
theorem explicit_termination (eps : List EntryPoint)
    (raw_decode : List Char → Nat → Except String (Request × Nat))
    (s s2 : ServerState) (line : List Char) (req : Request)
    (opMsgs : List WireMsg) (code : PyVal)
    (hlen : 2 ≤ line.length)
    (hrd : raw_decode line 0 = .ok (req, line.length))
    (hrun : dispatchOne eps s req = (s2, opMsgs, .sysExit code)) :
    handleLine eps raw_decode s line =
      some (.shutdown (opMsgs ++ printTo .out shutdownNoticeText ++
        [tell_client_to_exit code]) 0 true) := by
  unfold handleLine
  rw [handleLoop, if_pos (by omega), hrd]
  dsimp only
  rw [hrun]
  dsimp only [clean_exit]
  rw [List.nil_append]

/-- Witness for C4: the exit entry point called with the string argument 5
— the payload is relayed to the caller while the server's own exit code
stays 0. -/
theorem explicit_termination_witness :
    (2 ≤ ("xxxx".data).length ∧
     fixedRequestDecoder ⟨"exit", ["5"], []⟩ "xxxx".data 0
       = .ok (⟨"exit", ["5"], []⟩, ("xxxx".data).length) ∧
     dispatchOne SERVER_ENTRY_POINT ⟨[("OLD", "x")], none⟩ ⟨"exit", ["5"], []⟩
       = (⟨[], none⟩, [], .sysExit (.str "5"))) ∧
    handleLine SERVER_ENTRY_POINT (fixedRequestDecoder ⟨"exit", ["5"], []⟩)
        ⟨[("OLD", "x")], none⟩ "xxxx".data =
      some (.shutdown (([] : List WireMsg) ++ printTo .out shutdownNoticeText ++
        [tell_client_to_exit (.str "5")]) 0 true) :=
  ⟨⟨by decide, rfl, rfl⟩,
   explicit_termination SERVER_ENTRY_POINT _ ⟨[("OLD", "x")], none⟩ ⟨[], none⟩
     "xxxx".data ⟨"exit", ["5"], []⟩ [] (.str "5") (by decide) rfl rfl⟩

/-- C5: for every request line that fails JSON decoding on the server, the
failure detail (its traceback) is relayed as error output, the shutdown
notice is relayed, a terminate directive with code 1 is sent, and the whole
server process shuts down — clean_exit(1) raises SystemExit past
Handler.handle and socketserver, ending the process. -/
theorem server_decode_failure_fatal (eps : List EntryPoint)
    (raw_decode : List Char → Nat → Except String (Request × Nat))
    (s : ServerState) (line : List Char) (e : String)
    (hlen : 2 ≤ line.length)
    (he : raw_decode line 0 = .error e) :
    handleLine eps raw_decode s line =
      some (.shutdown (printTo .err (format_exc e) ++ printTo .out shutdownNoticeText ++
        [tell_client_to_exit (.int 1)]) 1 true) := by
  unfold handleLine
  rw [handleLoop, if_pos (by omega), he]
  dsimp only [clean_exit]
  rw [List.nil_append]

/-- Witness for C5: a malformed line whose decode fails immediately. -/
theorem server_decode_failure_fatal_witness :
    (2 ≤ ("\x7b bad json".data).length ∧
     (fun (_ : List Char) (_ : Nat) =>
        (Except.error "Expecting value: line 1 column 2 (char 1)" : Except String (Request × Nat)))
       "\x7b bad json".data 0 = .error "Expecting value: line 1 column 2 (char 1)") ∧
    handleLine SERVER_ENTRY_POINT
      (fun _ _ => Except.error "Expecting value: line 1 column 2 (char 1)")
      ⟨[], none⟩ "\x7b bad json".data =
      some (.shutdown (printTo .err (format_exc "Expecting value: line 1 column 2 (char 1)") ++
        printTo .out shutdownNoticeText ++ [tell_client_to_exit (.int 1)]) 1 true) :=
  ⟨⟨by decide, rfl⟩,
   server_decode_failure_fatal SERVER_ENTRY_POINT _ ⟨[], none⟩ "\x7b bad json".data
     "Expecting value: line 1 column 2 (char 1)" (by decide) rfl⟩

/-- C6: for every operation name absent from the registry, dispatch raises
the NameError whose message enumerates every currently registered name with
its declared parameter signature (each bullet line is a contiguous part of
the message), and the failure is handled like any other dispatch failure:
its traceback is relayed as error output, terminate(1) is sent, and the
service shuts down. -/
theorem unknown_operation_diagnostic (eps : List EntryPoint)
    (raw_decode : List Char → Nat → Except String (Request × Nat))
    (s : ServerState) (line : List Char) (req : Request)
    (hlen : 2 ≤ line.length)
    (hrd : raw_decode line 0 = .ok (req, line.length))
    (habs : eps.find? (fun ep => ep.name == req.function_name) = none) :
    dispatchOne eps s req =
      ({ s with environ := req.env }, [], .exc (entryPointError eps req.function_name)) ∧
    (∀ ep ∈ eps, (entryBullet ep).data <:+: (entryPointError eps req.function_name).data) ∧
    handleLine eps raw_decode s line =
      some (.shutdown (printTo .err (format_exc (entryPointError eps req.function_name)) ++
        printTo .out shutdownNoticeText ++ [tell_client_to_exit (.int 1)]) 0 true) := by
  have hdisp : dispatchOne eps s req =
      ({ s with environ := req.env }, [], .exc (entryPointError eps req.function_name)) := by
    unfold dispatchOne ServerEntryPoints.run
    rw [habs]
  refine ⟨hdisp, fun ep hep => entryPointError_contains_bullet eps req.function_name ep hep, ?_⟩
  unfold handleLine
  rw [handleLoop, if_pos (by omega), hrd]
  dsimp only
  rw [hdisp]
  dsimp only [clean_exit]
  rw [List.nil_append, List.nil_append]

/-- Witness for C6: requesting does-not-exist against the decorated
registry of server.py. -/
theorem unknown_operation_diagnostic_witness :
    (2 ≤ ("xx".data).length ∧
     fixedRequestDecoder ⟨"does-not-exist", [], []⟩ "xx".data 0
       = .ok (⟨"does-not-exist", [], []⟩, ("xx".data).length) ∧
     SERVER_ENTRY_POINT.find? (fun ep => ep.name == "does-not-exist") = none) ∧
    (dispatchOne SERVER_ENTRY_POINT ⟨[], none⟩ ⟨"does-not-exist", [], []⟩ =
      (⟨[], none⟩, [], .exc (entryPointError SERVER_ENTRY_POINT "does-not-exist")) ∧
     (∀ ep ∈ SERVER_ENTRY_POINT,
       (entryBullet ep).data <:+: (entryPointError SERVER_ENTRY_POINT "does-not-exist").data) ∧
     handleLine SERVER_ENTRY_POINT (fixedRequestDecoder ⟨"does-not-exist", [], []⟩)
        ⟨[], none⟩ "xx".data =
      some (.shutdown
        (printTo .err (format_exc (entryPointError SERVER_ENTRY_POINT "does-not-exist")) ++
         printTo .out shutdownNoticeText ++ [tell_client_to_exit (.int 1)]) 0 true)) :=
  ⟨⟨by decide, rfl, rfl⟩,
   unknown_operation_diagnostic SERVER_ENTRY_POINT _ ⟨[], none⟩ "xx".data
     ⟨"does-not-exist", [], []⟩ (by decide) rfl rfl⟩

/-- C7: for every received chunk that fails JSON decoding at the current
offset, the client prints the decode failure (str of the exception plus a
newline) and the result is looping — the receive loop continues waiting for
more bytes — never process termination, in contrast to the server's
fatal-on-decode-failure policy of C5. -/
theorem client_decode_failure_nonfatal
    (raw_decode : List Char → Nat → Except String (WireMsg × Nat))
    (chunk : List Char) (fuel msg_pos : Nat) (out err : List String) (e : String)
    (hfuel : 0 < fuel) (hpos : msg_pos < chunk.length - 1)
    (he : raw_decode chunk msg_pos = .error e) :
    clientChunkLoop raw_decode chunk fuel msg_pos out err =
      some (.looping (out ++ [e ++ "\n"]) err) := by
  obtain ⟨f, rfl⟩ : ∃ f, fuel = f + 1 := ⟨fuel - 1, by omega⟩
  rw [clientChunkLoop, if_pos hpos, he]

/-- Witness for C7: a chunk whose decode fails at offset 0. -/
theorem client_decode_failure_nonfatal_witness :
    (0 < 1 ∧ 0 < ("xx".data).length - 1 ∧
     (fun (_ : List Char) (_ : Nat) =>
        (Except.error "Expecting value: line 1 column 1 (char 0)" : Except String (WireMsg × Nat)))
       "xx".data 0 = .error "Expecting value: line 1 column 1 (char 0)") ∧
    clientChunkLoop (fun _ _ => Except.error "Expecting value: line 1 column 1 (char 0)")
        "xx".data 1 0 [] [] =
      some (.looping ([] ++ ["Expecting value: line 1 column 1 (char 0)" ++ "\n"]) []) :=
  ⟨⟨by decide, by decide, rfl⟩,
   client_decode_failure_nonfatal _ "xx".data 1 0 [] []
     "Expecting value: line 1 column 1 (char 0)" (by decide) (by decide) rfl⟩

/-- C8 counterexample: the claim says write is a no-op for empty or
whitespace-only text; in server.py lines 131-137 write has no such check,
so writing the empty string (or a single space) does send a relay
message. -/
theorem write_empty_text_sends :
    JsonPayloadOutputStreamWrapper.write "print_server_stdout" [] "" ≠ [] ∧
    JsonPayloadOutputStreamWrapper.write "print_server_stdout" [] " " ≠ [] := by
  constructor <;> decide

/-- C8 amended: for every text — empty and whitespace-only included — write
immediately encodes and sends the one message naming the client handler with
the text as its only argument, with no delimiter and no suppression: it is
never a no-op. -/
theorem write_always_sends (client_function_name : String) (sent : List WireMsg) (text : String) :
    JsonPayloadOutputStreamWrapper.write client_function_name sent text
      = sent ++ [⟨client_function_name, [.str text]⟩] ∧
    JsonPayloadOutputStreamWrapper.write client_function_name sent text ≠ sent := by
  refine ⟨rfl, fun h => ?_⟩
  have := congrArg List.length h
  simp [JsonPayloadOutputStreamWrapper.write] at this

/-- C9: with no server listening (every connect attempt fails), the client
performs exactly 10 connection attempts; before the n-th retry it prints the
waiting notice and sleeps n tenths of the time unit (time.sleep(n * 0.1)),
and after the 10th failed attempt it prints a diagnostic to standard error
and exits with the nonzero code 1. Any fuel beyond the ten iterations leaves
the trace unchanged. -/
theorem connect_retry_ten_attempts (fuel : Nat) :
    connectLoop (fun _ => false) (fuel + 10) 0 =
      [.connectAttempt, .stdoutLine waitingNoticeText, .sleepTenths 1,
       .connectAttempt, .stdoutLine waitingNoticeText, .sleepTenths 2,
       .connectAttempt, .stdoutLine waitingNoticeText, .sleepTenths 3,
       .connectAttempt, .stdoutLine waitingNoticeText, .sleepTenths 4,
       .connectAttempt, .stdoutLine waitingNoticeText, .sleepTenths 5,
       .connectAttempt, .stdoutLine waitingNoticeText, .sleepTenths 6,
       .connectAttempt, .stdoutLine waitingNoticeText, .sleepTenths 7,
       .connectAttempt, .stdoutLine waitingNoticeText, .sleepTenths 8,
       .connectAttempt, .stdoutLine waitingNoticeText, .sleepTenths 9,
       .connectAttempt,
       .stderrLine "[client.py]: Couldn\x27t connect after 10 attempts",
       .exitProcess 1] ∧
    (connectLoop (fun _ => false) (fuel + 10) 0).count .connectAttempt = 10 :=
  ⟨rfl, of_decide_eq_true rfl⟩

/-- C10: for every non-empty buffer of length at most 1, the incremental
decode loop performs zero parses: the loop condition compares the offset
with the last index (length minus one) rather than the length, so a
single-character buffer is never parsed. The conjuncts state this for the
bare loop, for the server handler (no dispatch, no message sent, state
unchanged) and for the client reply loop (nothing printed, still looping). -/
theorem single_char_buffer_never_parsed {α : Type}
    (raw_decode : List Char → Nat → Except String (α × Nat))
    (server_decode : List Char → Nat → Except String (Request × Nat))
    (client_decode : List Char → Nat → Except String (WireMsg × Nat))
    (eps : List EntryPoint) (s : ServerState) (buf : List Char)
    (hne : buf ≠ []) (hshort : buf.length ≤ 1) :
    decodeLoop raw_decode buf = some ([], 0) ∧
    handleLine eps server_decode s buf = some (.next s [] 0) ∧
    clientHandleChunk client_decode buf = some (.looping [] []) := by
  have hpos : 1 ≤ buf.length := List.length_pos.mpr hne
  refine ⟨?_, ?_, ?_⟩
  · unfold decodeLoop
    rw [decodeLoopAux, if_neg (by omega)]
  · unfold handleLine
    rw [handleLoop, if_neg (by omega)]
  · unfold clientHandleChunk
    rw [clientChunkLoop, if_neg (by omega)]

/-- Witness for C10: the single character 7, a complete JSON value that is
nevertheless never parsed by either side. -/
theorem single_char_buffer_never_parsed_witness :
    ((['7'] : List Char) ≠ [] ∧ (['7'] : List Char).length ≤ 1) ∧
    (decodeLoop braceDecode ['7'] = some ([], 0) ∧
     handleLine SERVER_ENTRY_POINT (fixedRequestDecoder ⟨"get_thing", [], []⟩) ⟨[], none⟩ ['7'] =
       some (.next ⟨[], none⟩ [] 0) ∧
     clientHandleChunk (fun _ _ => Except.error "Expecting value") ['7'] =
       some (.looping [] [])) :=
  ⟨⟨by decide, by decide⟩,
   single_char_buffer_never_parsed braceDecode (fixedRequestDecoder ⟨"get_thing", [], []⟩)
     (fun _ _ => Except.error "Expecting value") SERVER_ENTRY_POINT ⟨[], none⟩ ['7']
     (by decide) (by decide)⟩

end StatefulPython
